import Mathlib

/-
Verification of the pysnyk manager/pagination/normalization core.

The definitions below are a shallow embedding of `src/snyk/client.py` and
`src/snyk/managers.py`.  JSON bodies are modelled by the inductive type `J`;
Python `dict.get(key, default)` on a value that may not be a dict is modelled
by `J.dGet`, which returns `none` exactly when the Python expression would
raise (receiver is not a dict) and `some` of the looked-up-or-default value
otherwise.  A raised Python exception is modelled by `Except.error` /
`Option.none`; pagination uses an explicit fuel parameter for the `while`
loop, and every application of the transport function counts as one network
call.
-/

namespace PySnyk

/-- A JSON value, as handled by the Python code (dicts are association lists
in insertion order, as in CPython). -/
inductive J : Type
  | null : J
  | bool : Bool → J
  | num : Int → J
  | str : String → J
  | arr : List J → J
  | obj : List (String × J) → J

/-- Key lookup in a JSON object; `none` when the key is missing or the value
is not an object.  Mirrors Python `d[k]` presence checking on dicts. -/
def J.lookup : J → String → Option J
  | .obj fields, k => (fields.find? (fun kv => kv.1 == k)).map (fun kv => kv.2)
  | _, _ => none

/-- The value at `k` or the default `d`: the result of Python `x.get(k, d)`
when `x` is a dict. -/
def J.atKeyD (j : J) (k : String) (d : J) : J := (j.lookup k).getD d

/-- Whether a JSON value is an object (a Python dict). -/
def J.isObj : J → Bool
  | .obj _ => true
  | _ => false

/-- Python `x.get(k, d)`: `some` of the looked-up-or-default value when `x`
is a dict, `none` (modelling the raised `AttributeError`) otherwise. -/
def J.dGet (j : J) (k : String) (d : J) : Option J :=
  match j with
  | .obj _ => some (j.atKeyD k d)
  | _ => none

/-- Python `v == s` for a string literal `s`: true only when `v` is that
string (a non-string value never equals a string in Python). -/
def J.eqStr : J → String → Bool
  | .str t, s => t == s
  | _, _ => false

/-! ### Page walker (`SnykClient.get_rest_pages`, client.py lines 300-349) -/

/-- The `links` member of a paginated REST response. -/
structure Links where
  next? : Option String := none
  self? : Option String := none
deriving DecidableEq

/-- One paginated REST response body.  Items are abstracted to `Nat` tokens
(`get_rest_pages` only moves them around); `data? = none` models a body with
no "data" key. -/
structure Page where
  links : Links := {}
  data? : Option (List Nat) := none
deriving DecidableEq

/-- The error raised when the first page of a paginated fetch has no "data"
member (`page_data["data"]` raises; the spec calls this condition
`MalformedPageError`). -/
inductive PageError : Type
  | missingData : PageError
deriving DecidableEq

/-- Truthiness of `page_data.get("links", {}).get("next")`: the `while`
condition, which is falsy when "next" is absent or the empty string. -/
def truthyNext (p : Page) : Option String :=
  match p.links.next? with
  | some s => if s = "" then none else some s
  | none => none

/-- The `while` loop of `get_rest_pages`.  `t` is the transport (one
application = one network call), `acc` is `return_data`, `calls` counts
transport calls made so far, and `fuel` bounds the iteration count (all
theorems supply enough fuel for it to be irrelevant).  The dead
`if "next" in page_data["links"]` re-check of the source is omitted: the
`while` condition already guarantees it. -/
def getRestPagesLoop (t : String → Page) : Nat → Page → List Nat → Nat → List Nat × Nat
  | 0, _, acc, calls => (acc, calls)
  | fuel + 1, page, acc, calls =>
    match truthyNext page with
    | none => (acc, calls)
    | some u =>
      if page.links.self? = some u then (acc, calls)
      else
        let next := t u
        match next.data? with
        | none => (acc, calls + 1)
        | some d =>
          if d = [] then (acc, calls + 1)
          else getRestPagesLoop t fuel next (acc ++ d) (calls + 1)

/-- `SnykClient.get_rest_pages(path)`: fetches `t path`, takes its "data"
list (raising when absent), then follows "next" links.  Returns the
accumulated items together with the number of transport calls made. -/
def getRestPages (t : String → Page) (path : String) (fuel : Nat) :
    Except PageError (List Nat × Nat) :=
  let page := t path
  match page.data? with
  | none => .error .missingData
  | some d => .ok (getRestPagesLoop t fuel page d 1)

/-- The "data" items of a page (empty when the key is absent). -/
def dataOf (p : Page) : List Nat := p.data?.getD []

/-- Concatenation of the "data" items of a list of pages, in order. -/
def joinData (ps : List Page) : List Nat := (ps.map dataOf).flatten

/-- The last page of `p :: rest`. -/
def lastP (p : Page) : List Page → Page
  | [] => p
  | q :: rest => lastP q rest

/-- `Chained t p rest`: starting from `p`, each page of `rest` is obtained by
following the previous page's truthy "next" link (which differs from its
"self" link) through the transport `t`. -/
def Chained (t : String → Page) : Page → List Page → Prop
  | _, [] => True
  | p, q :: rest =>
    ∃ u, truthyNext p = some u ∧ p.links.self? ≠ some u ∧ t u = q ∧ Chained t q rest

/-- A page with a present, non-empty "data" list (the walk continues past
such a page). -/
def GoodData (q : Page) : Prop := ∃ d, q.data? = some d ∧ d ≠ []

/-- A page at which the walk stops without fetching again: either its "next"
link is absent/empty, or its "next" link equals its "self" link. -/
def StopsNoFetch (p : Page) : Prop :=
  truthyNext p = none ∨ ∃ u, truthyNext p = some u ∧ p.links.self? = some u

/-! ### Schema normalizer (`ProjectManager._rest_to_v1_response_format`,
managers.py lines 930-987) -/

/-- The flat legacy (v1) view produced by the normalizer.  Fields hold the
JSON values the Python dict would hold (Python `None` is `J.null`). -/
structure V1View where
  name : J
  id : J
  created : J
  origin : J
  type : J
  readOnly : J
  testFrequency : J
  lastTestedDate : J
  isMonitored : Bool
  low : J
  medium : J
  high : J
  critical : J
  targetReference : J
  branch : J
  remoteRepoUrl : J
  imageCluster : J
  tags : J
  importingUserId : J
  owningUserId : J

/-- `project.get("attributes", {})`. -/
abbrev projAttributes (p : J) : J := p.atKeyD "attributes" (.obj [])

/-- `attributes.get("settings", {})`. -/
abbrev projSettings (p : J) : J := (projAttributes p).atKeyD "settings" (.obj [])

/-- `settings.get("recurring_tests", {})`. -/
abbrev projRecurring (p : J) : J := (projSettings p).atKeyD "recurring_tests" (.obj [])

/-- `project.get("meta", {})`. -/
abbrev projMeta (p : J) : J := p.atKeyD "meta" (.obj [])

/-- `project.get("meta", {}).get("latest_issue_counts", {})`. -/
abbrev projCounts (p : J) : J := (projMeta p).atKeyD "latest_issue_counts" (.obj [])

/-- `project.get("relationships", {})`. -/
abbrev projRels (p : J) : J := p.atKeyD "relationships" (.obj [])

/-- `...get("target", {})`. -/
abbrev projTarget (p : J) : J := (projRels p).atKeyD "target" (.obj [])

/-- `...get("target", {}).get("data", {})`. -/
abbrev projTargetData (p : J) : J := (projTarget p).atKeyD "data" (.obj [])

/-- `...target data...get("attributes", {})`. -/
abbrev projTargetAttrs (p : J) : J := (projTargetData p).atKeyD "attributes" (.obj [])

/-- `...target data...get("meta", {})`. -/
abbrev projTargetMeta (p : J) : J := (projTargetData p).atKeyD "meta" (.obj [])

/-- `...get("integration_data", {})`. -/
abbrev projIntegration (p : J) : J := (projTargetMeta p).atKeyD "integration_data" (.obj [])

/-- `relationships.get("importer", {})`. -/
abbrev projImporter (p : J) : J := (projRels p).atKeyD "importer" (.obj [])

/-- `importer.get("data", {})`. -/
abbrev projImporterData (p : J) : J := (projImporter p).atKeyD "data" (.obj [])

/-- `relationships.get("owner", {})`. -/
abbrev projOwner (p : J) : J := (projRels p).atKeyD "owner" (.obj [])

/-- `owner.get("data", {})`. -/
abbrev projOwnerData (p : J) : J := (projOwner p).atKeyD "data" (.obj [])

/-- A REST project payload shape: every value the normalizer calls `.get` on
is a dict when present (missing keys default to `{}` and are always fine).
This is exactly the shape of REST project payloads seen in practice. -/
abbrev WellShaped (p : J) : Prop :=
  p.isObj = true ∧
  (projAttributes p).isObj = true ∧
  (projSettings p).isObj = true ∧
  (projRecurring p).isObj = true ∧
  (projMeta p).isObj = true ∧
  (projCounts p).isObj = true ∧
  (projRels p).isObj = true ∧
  (projTarget p).isObj = true ∧
  (projTargetData p).isObj = true ∧
  (projTargetAttrs p).isObj = true ∧
  (projTargetMeta p).isObj = true ∧
  (projIntegration p).isObj = true ∧
  (projImporter p).isObj = true ∧
  (projImporterData p).isObj = true ∧
  (projOwner p).isObj = true ∧
  (projOwnerData p).isObj = true

/-- `ProjectManager._rest_to_v1_response_format`, with each Python `.get`
access a `J.dGet` step (`none` = the access raised).  The source recomputes
the `relationships → target → data` prefix for `image_cluster`,
`importingUserId` and `owningUserId`; being pure, the recomputation is
reused here, and `branch` reuses the `target_reference` access. -/
def rest_to_v1_response_format (project : J) : Option V1View :=
  match project.dGet "attributes" (.obj []) with
  | none => none
  | some attributes =>
  match attributes.dGet "settings" (.obj []) with
  | none => none
  | some settings =>
  match settings.dGet "recurring_tests" (.obj []) with
  | none => none
  | some recurring_tests =>
  match project.dGet "meta" (.obj []) with
  | none => none
  | some meta =>
  match meta.dGet "latest_issue_counts" (.obj []) with
  | none => none
  | some issue_counts =>
  match project.dGet "relationships" (.obj []) with
  | none => none
  | some relationships =>
  match relationships.dGet "target" (.obj []) with
  | none => none
  | some target =>
  match target.dGet "data" (.obj []) with
  | none => none
  | some target_data =>
  match target_data.dGet "attributes" (.obj []) with
  | none => none
  | some target_attributes =>
  match target_attributes.dGet "url" .null with
  | none => none
  | some remote_repo_url =>
  match target_data.dGet "meta" (.obj []) with
  | none => none
  | some target_meta =>
  match target_meta.dGet "integration_data" (.obj []) with
  | none => none
  | some integration_data =>
  match integration_data.dGet "cluster" .null with
  | none => none
  | some image_cluster =>
  match attributes.dGet "name" .null with
  | none => none
  | some nameV =>
  match project.dGet "id" .null with
  | none => none
  | some idV =>
  match attributes.dGet "created" .null with
  | none => none
  | some createdV =>
  match attributes.dGet "origin" .null with
  | none => none
  | some originV =>
  match attributes.dGet "type" .null with
  | none => none
  | some typeV =>
  match attributes.dGet "read_only" .null with
  | none => none
  | some readOnlyV =>
  match recurring_tests.dGet "frequency" .null with
  | none => none
  | some frequencyV =>
  match issue_counts.dGet "updated_at" .null with
  | none => none
  | some lastTestedV =>
  match attributes.dGet "status" .null with
  | none => none
  | some statusV =>
  match issue_counts.dGet "low" (.num 0) with
  | none => none
  | some lowV =>
  match issue_counts.dGet "medium" (.num 0) with
  | none => none
  | some mediumV =>
  match issue_counts.dGet "high" (.num 0) with
  | none => none
  | some highV =>
  match issue_counts.dGet "critical" (.num 0) with
  | none => none
  | some criticalV =>
  match attributes.dGet "target_reference" .null with
  | none => none
  | some targetReferenceV =>
  match attributes.dGet "tags" (.arr []) with
  | none => none
  | some tagsV =>
  match relationships.dGet "importer" (.obj []) with
  | none => none
  | some importer =>
  match importer.dGet "data" (.obj []) with
  | none => none
  | some importer_data =>
  match importer_data.dGet "id" .null with
  | none => none
  | some importingUserIdV =>
  match relationships.dGet "owner" (.obj []) with
  | none => none
  | some owner =>
  match owner.dGet "data" (.obj []) with
  | none => none
  | some owner_data =>
  match owner_data.dGet "id" .null with
  | none => none
  | some owningUserIdV =>
  some
    { name := nameV
      id := idV
      created := createdV
      origin := originV
      type := typeV
      readOnly := readOnlyV
      testFrequency := frequencyV
      lastTestedDate := lastTestedV
      isMonitored := statusV.eqStr "active"
      low := lowV
      medium := mediumV
      high := highV
      critical := criticalV
      targetReference := targetReferenceV
      branch := targetReferenceV
      remoteRepoUrl := remote_repo_url
      imageCluster := image_cluster
      tags := tagsV
      importingUserId := importingUserIdV
      owningUserId := owningUserIdV }

/-- The value the normalizer returns on a well-shaped payload, written with
total accessors. -/
def mkV1 (p : J) : V1View :=
  { name := (projAttributes p).atKeyD "name" .null
    id := p.atKeyD "id" .null
    created := (projAttributes p).atKeyD "created" .null
    origin := (projAttributes p).atKeyD "origin" .null
    type := (projAttributes p).atKeyD "type" .null
    readOnly := (projAttributes p).atKeyD "read_only" .null
    testFrequency := (projRecurring p).atKeyD "frequency" .null
    lastTestedDate := (projCounts p).atKeyD "updated_at" .null
    isMonitored := ((projAttributes p).atKeyD "status" .null).eqStr "active"
    low := (projCounts p).atKeyD "low" (.num 0)
    medium := (projCounts p).atKeyD "medium" (.num 0)
    high := (projCounts p).atKeyD "high" (.num 0)
    critical := (projCounts p).atKeyD "critical" (.num 0)
    targetReference := (projAttributes p).atKeyD "target_reference" .null
    branch := (projAttributes p).atKeyD "target_reference" .null
    remoteRepoUrl := (projTargetAttrs p).atKeyD "url" .null
    imageCluster := (projIntegration p).atKeyD "cluster" .null
    tags := (projAttributes p).atKeyD "tags" (.arr [])
    importingUserId := (projImporterData p).atKeyD "id" .null
    owningUserId := (projOwnerData p).atKeyD "id" .null }

/-! ### Manager abstraction (managers.py) -/

/-- The errors raised by the manager layer: `SnykNotFoundError` (the spec's
`NotFoundError`) and the generic `SnykError` (raised, among others, for a
malformed tag — the spec's `ConfigurationError`). -/
inductive SnykErr : Type
  | notFound : SnykErr
  | snykError : SnykErr
deriving DecidableEq

/-- A typed resource as seen by a list-manager: an id plus an opaque payload
token. -/
structure Resource where
  id : String
  payload : Nat
deriving DecidableEq

/-- The default `Manager.get` (managers.py lines 28-32):
`next(x for x in self.all() if x.id == id)`, raising `SnykNotFoundError` when
the generator is exhausted.  `allResult` is the list `self.all()` returned. -/
def managerGet (allResult : List Resource) (i : String) : Except SnykErr Resource :=
  match allResult.find? (fun x => x.id == i) with
  | some x => .ok x
  | none => .error .notFound

/-- The id of a successful `managerGet` result, `none` on error. -/
def getOkId : Except SnykErr Resource → Option String
  | .ok x => some x.id
  | .error _ => none

/-- A tag dict passed to `ProjectManager.filter` / `_query`: a Python dict,
i.e. a duplicate-free association list of string keys to string values. -/
abbrev Tag : Type := List (String × String)

/-- Python `"k" in tag`. -/
def tagHas (t : Tag) (k : String) : Bool :=
  (List.any t (fun kv => kv.1 == k))

/-- The value of tag member `k` (validated tags always contain it; the
default is never reached on a validated tag). -/
def tagVal (t : Tag) (k : String) : String :=
  (((List.find? (fun kv => kv.1 == k) t)).map (fun kv => kv.2)).getD ""

/-- Negation of the `_query` rejection test
`"key" not in tag or "value" not in tag or len(tag.keys()) != 2`. -/
def wellFormedTag (t : Tag) : Bool :=
  tagHas t "key" && tagHas t "value" && (List.length t == 2)

/-- `f-string {d["key"]}:{d["value"]}`. -/
def tagRender (t : Tag) : String := tagVal t "key" ++ ":" ++ tagVal t "value"

/-- `",".join(...)` over the rendered tags. -/
def renderedTags (tags : List Tag) : String :=
  String.intercalate "," (List.map tagRender tags)

/-- A query-parameter value as the Python code passes it to the transport:
it keeps its Python type (int, str, bool or None) until serialization. -/
inductive PV : Type
  | str : String → PV
  | num : Int → PV
  | bool : Bool → PV
  | null : PV
deriving DecidableEq

/-- The params dict `_query` builds for its first-page request, in insertion
order: `limit`, then `tags` (only when a tags list was given), then the
first-page-only `meta.latest_issue_counts` and `expand` entries. -/
def projectParams (tags : List Tag) : List (String × PV) :=
  [("limit", .num 100)] ++
    (if tags.isEmpty then [] else [("tags", .str (renderedTags tags))]) ++
    [("meta.latest_issue_counts", .str "true"), ("expand", .str "target")]

/-- A request handed to the transport: a path and a params dict. -/
structure Request where
  path : String
  params : List (String × PV)
deriving DecidableEq

/-- `ProjectManager._query`'s behaviour up to its first network call.
`scope` is the manager's optional `Organization` instance (`self.instance`),
reduced to its id.  Scoped (`if self.instance:`): the tag validation loop
runs before any request, so a malformed tag raises `SnykError` with zero
transport calls; otherwise the first-page projects request is issued.
Unscoped `else` branch (managers.py lines 1037-1039): the tags argument is
silently discarded — no validation runs and the first network call is
`organizations.all()`'s GET "orgs" with no params.  The result is (transport
calls made up to and including the first request, the error raised or the
first request issued). -/
def projectQueryFirst (scope : Option String) (tags : List Tag) :
    Nat × Except SnykErr Request :=
  match scope with
  | some orgId =>
    if tags.all wellFormedTag then
      (1, .ok ⟨"/orgs/" ++ orgId ++ "/projects", projectParams tags⟩)
    else
      (0, .error .snykError)
  | none => (1, .ok ⟨"orgs", []⟩)

/-- The "tags" query parameter of the first request issued by a
`projectQueryFirst` run (`none` on error or when the parameter is absent). -/
def sentTagsParam (r : Nat × Except SnykErr Request) : Option PV :=
  match r.2 with
  | .ok req => List.lookup "tags" req.params
  | .error _ => none

/-- `Manager._filter_by_kwargs`: each keyword predicate filters the list in
turn (`getattr(x, key) == value` is abstracted to one boolean predicate per
keyword argument). -/
def filter_by_kwargs (data : List Resource) (preds : List (Resource → Bool)) :
    List Resource :=
  preds.foldl (fun d pr => d.filter pr) data

/-- `ProjectManager.filter` (managers.py lines 1045-1049): with a tags list it
returns `_filter_by_kwargs(self._query(tags), **kwargs)` — the response from
`_query` filtered only by the keyword predicates, never re-filtered by the
tag predicate; without tags it falls back to the default filter over
`all()`. -/
def projectFilter (tags : List Tag) (preds : List (Resource → Bool))
    (queryResult allResult : List Resource) : List Resource :=
  if tags.isEmpty then filter_by_kwargs allResult preds
  else filter_by_kwargs queryResult preds

/-! ### Client GET parameter handling (`SnykClient.get`, client.py lines
201-262) -/

/-- Whether `pat` is a prefix of `s` (on character lists). -/
def prefixOfL : List Char → List Char → Bool
  | [], _ => true
  | _ :: _, [] => false
  | a :: as, b :: bs => a == b && prefixOfL as bs

/-- Whether `pat` occurs in `s` (on character lists). -/
def containsL : List Char → List Char → Bool
  | [], pat => pat.isEmpty
  | s@(_ :: rest), pat => prefixOfL pat s || containsL rest pat

/-- Python `pat in s` for strings (substring test). -/
def containsStr (s pat : String) : Bool := containsL s.data pat.data

/-- The boolean-normalization loop of `SnykClient.get`'s REST branch:
`params[k] = str(v).lower()` for every bool-valued param. -/
def serializeBools (params : List (String × PV)) : List (String × PV) :=
  params.map fun kv =>
    match kv.2 with
    | .bool b => (kv.1, .str (if b then "true" else "false"))
    | v => (kv.1, v)

/-- The REST branch's version insertion: when neither the params nor the path
already carry a version, `params["version"] = version or self.version`. -/
def withVersion (path : String) (params : List (String × PV))
    (version clientVersion : Option String) : List (String × PV) :=
  if params.any (fun kv => kv.1 == "version") || containsStr path "version" then
    params
  else
    params ++
      [("version", match version <|> clientVersion with
        | some s => PV.str s
        | none => PV.null)]

/-- The query parameters `SnykClient.get` hands to the transport: `none`
when no params are sent at all (a fully-formed `snyk.io` pagination URL).
A passed `version` forces the REST branch; the v1 branch transmits `params`
unchanged.  (`cleanup_path` only trims slashes and is left out: it does not
change the substring tests.) -/
def clientGetSentParams (path : String) (params : List (String × PV))
    (version clientVersion : Option String) (rest : Bool) :
    Option (List (String × PV)) :=
  let isRest := if version.isSome then true else rest
  if isRest then
    let params := withVersion path params version clientVersion
    let params := serializeBools params
    if containsStr path "snyk.io" then none else some params
  else
    some params

/-- Whether the transmitted params (when any are transmitted) contain no
raw boolean value. -/
def noRawBools : Option (List (String × PV)) → Bool
  | none => true
  | some ps =>
    ps.all fun kv =>
      match kv.2 with
      | .bool _ => false
      | _ => true

/-! ### OrganizationManager.all (managers.py lines 896-905) -/

/-- `OrganizationManager.all` on a decoded response body: when the body has
no "orgs" key the loop never runs and the empty list is returned; when it has
one, the org dicts are collected (model-object construction is identity
here).  `none` models the error cases outside the claims (non-dict body or a
non-array "orgs" value). -/
def organizationAll (body : J) : Option (List J) :=
  match body with
  | .obj _ =>
    match body.lookup "orgs" with
    | some (.arr orgs) => some orgs
    | some _ => none
    | none => some []
  | _ => none

/-! ### Example inputs used by the witnesses -/

/-- Third mock page: ten items, no "next" link. -/
def exPage3 : Page := { links := { self? := some "https://api.snyk.io/rest/p3" }
                        data? := some (List.range' 20 10) }

/-- Second mock page: ten items, "next" pointing at the third page. -/
def exPage2 : Page := { links := { next? := some "https://api.snyk.io/rest/p3"
                                   self? := some "https://api.snyk.io/rest/p2" }
                        data? := some (List.range' 10 10) }

/-- First mock page: ten items, "next" pointing at the second page. -/
def exPage1 : Page := { links := { next? := some "https://api.snyk.io/rest/p2"
                                   self? := some "https://api.snyk.io/rest/p1" }
                        data? := some (List.range 10) }

/-- A page whose "next" link equals its "self" link (misbehaving backend). -/
def exSelfPage : Page := { links := { next? := some "https://api.snyk.io/rest/p2"
                                      self? := some "https://api.snyk.io/rest/p2" }
                           data? := some [100, 101] }

/-- A subsequent page with no "data" member. -/
def exNoDataPage : Page := { links := { self? := some "https://api.snyk.io/rest/p2" } }

/-- A mock transport serving the pages above by URL. -/
def exT : String → Page := fun u =>
  if u = "first" then exPage1
  else if u = "https://api.snyk.io/rest/p2" then exPage2
  else if u = "https://api.snyk.io/rest/p3" then exPage3
  else if u = "selfish" then exSelfPage
  else if u = "nodata" then exNoDataPage
  else { }

/-- A first page linking to the self-referential page. -/
def exSelfFirst : Page := { links := { next? := some "https://api.snyk.io/rest/p2"
                                       self? := some "https://api.snyk.io/rest/p1" }
                            data? := some [1, 2, 3] }

/-- A transport where the first page links to a self-referential page. -/
def exTSelf : String → Page := fun u =>
  if u = "first" then exSelfFirst else exSelfPage

/-- A first page linking to the page without "data". -/
def exNoDataFirst : Page := { links := { next? := some "https://api.snyk.io/rest/p2"
                                         self? := some "https://api.snyk.io/rest/p1" }
                              data? := some [7, 8] }

/-- A transport where the first page links to a page without "data". -/
def exTNoData : String → Page := fun u =>
  if u = "first" then exNoDataFirst else exNoDataPage

/-- A concrete REST project payload with an empty `latest_issue_counts`. -/
def exProj : J :=
  .obj [("id", .str "331ede0a-de94-456f-b788-166caeca58bf"),
        ("attributes", .obj [("name", .str "example-project"),
                             ("status", .str "active"),
                             ("target_reference", .str "main")]),
        ("meta", .obj [("latest_issue_counts", .obj [])])]

/-- A concrete `all()` result for the default-manager round trip. -/
def exResources : List Resource := [⟨"id-a", 0⟩, ⟨"id-b", 1⟩, ⟨"id-c", 2⟩]

/-- An orgs response body without an "orgs" key. -/
def exOrgBody : J := .obj [("foo", .str "bar")]

/-- A malformed tag: has "key" but no "value". -/
def exBadTag : Tag := [("key", "env")]

/-- A well-formed tag rendering to "env:prod". -/
def exGoodTag : Tag := [("key", "env"), ("value", "prod")]

/-! ### Helper lemmas -/

/-- A `.get` on a dict always succeeds with the looked-up-or-default value. -/
theorem dGet_of_obj {j : J} (h : j.isObj = true) (k : String) (d : J) :
    j.dGet k d = some (j.atKeyD k d) := by
  cases j <;> simp_all [J.dGet, J.isObj]

/-- `J.eqStr` decides equality with a string literal. -/
theorem eqStr_eq_true_iff (j : J) (s : String) :
    j.eqStr s = true ↔ j = J.str s := by
  cases j <;> simp [J.eqStr]

/-- A missing "data" member on the first fetched page is an error. -/
theorem getRestPages_missing_first_data (t : String → Page) (path : String)
    (fuel : Nat) (h : (t path).data? = none) :
    getRestPages t path fuel = .error .missingData := by
  simp [getRestPages, h]

/-- Loop invariant: along a chain of linked pages, each with non-empty data,
ending at a page at which the walk stops without fetching, the loop appends
the chain's items and makes one call per followed link. -/
theorem getRestPagesLoop_stop (t : String → Page) :
    ∀ (rest : List Page) (p : Page) (acc : List Nat) (calls fuel : Nat),
      Chained t p rest → (∀ q ∈ rest, GoodData q) →
      StopsNoFetch (lastP p rest) → rest.length < fuel →
      getRestPagesLoop t fuel p acc calls = (acc ++ joinData rest, calls + rest.length) := by
  intro rest
  induction rest with
  | nil =>
    intro p acc calls fuel _ _ hstop hfuel
    obtain ⟨m, rfl⟩ : ∃ m, fuel = m + 1 := ⟨fuel - 1, by omega⟩
    simp only [lastP] at hstop
    rcases hstop with h | ⟨u, hu, hself⟩
    · simp [getRestPagesLoop, h, joinData]
    · simp [getRestPagesLoop, hu, hself, joinData]
  | cons q rest' ih =>
    intro p acc calls fuel hch hgood hstop hfuel
    simp only [Chained] at hch
    obtain ⟨u, hu, hne, htq, hch'⟩ := hch
    obtain ⟨d, hd, hdne⟩ := hgood q (by simp)
    obtain ⟨m, rfl⟩ : ∃ m, fuel = m + 1 := ⟨fuel - 1, by omega⟩
    have hfuel' : rest'.length < m := by
      simp only [List.length_cons] at hfuel; omega
    have hstop' : StopsNoFetch (lastP q rest') := by
      simpa only [lastP] using hstop
    have hgood' : ∀ r ∈ rest', GoodData r := fun r hr => hgood r (by simp [hr])
    simp only [getRestPagesLoop, hu, if_neg hne, htq, hd, if_neg hdne]
    rw [ih q (acc ++ d) (calls + 1) m hch' hgood' hstop' hfuel']
    simp only [joinData, List.map_cons, List.flatten_cons, dataOf, hd,
      Option.getD_some, List.length_cons, Prod.mk.injEq]
    constructor
    · simp [List.append_assoc, joinData]
    · omega

/-- Loop invariant: a chain of good pages followed by a fetched page with
missing or empty "data" stops there, with one extra call for that fetch. -/
theorem getRestPagesLoop_badEnd (t : String → Page) (z : Page)
    (hz : z.data? = none ∨ z.data? = some []) :
    ∀ (rest : List Page) (p : Page) (acc : List Nat) (calls fuel : Nat),
      Chained t p (rest ++ [z]) → (∀ q ∈ rest, GoodData q) →
      rest.length < fuel →
      getRestPagesLoop t fuel p acc calls = (acc ++ joinData rest, calls + rest.length + 1) := by
  intro rest
  induction rest with
  | nil =>
    intro p acc calls fuel hch _ hfuel
    simp only [List.nil_append, Chained] at hch
    obtain ⟨u, hu, hne, htz, _⟩ := hch
    obtain ⟨m, rfl⟩ : ∃ m, fuel = m + 1 := ⟨fuel - 1, by omega⟩
    rcases hz with h | h
    · simp [getRestPagesLoop, hu, if_neg hne, htz, h, joinData]
    · simp [getRestPagesLoop, hu, if_neg hne, htz, h, joinData]
  | cons q rest' ih =>
    intro p acc calls fuel hch hgood hfuel
    simp only [List.cons_append, Chained] at hch
    obtain ⟨u, hu, hne, htq, hch'⟩ := hch
    obtain ⟨d, hd, hdne⟩ := hgood q (by simp)
    obtain ⟨m, rfl⟩ : ∃ m, fuel = m + 1 := ⟨fuel - 1, by omega⟩
    have hfuel' : rest'.length < m := by
      simp only [List.length_cons] at hfuel; omega
    have hgood' : ∀ r ∈ rest', GoodData r := fun r hr => hgood r (by simp [hr])
    simp only [getRestPagesLoop, hu, if_neg hne, htq, hd, if_neg hdne]
    rw [ih q (acc ++ d) (calls + 1) m hch' hgood' hfuel']
    simp only [joinData, List.map_cons, List.flatten_cons, dataOf, hd,
      Option.getD_some, List.length_cons, Prod.mk.injEq]
    constructor
    · simp [List.append_assoc, joinData]
    · omega

/-- On a well-shaped payload every `.get` succeeds and the normalizer
returns exactly `mkV1`. -/
theorem rest_to_v1_eq_mkV1 (p : J) (h : WellShaped p) :
    rest_to_v1_response_format p = some (mkV1 p) := by
  obtain ⟨h1, h2, h3, h4, h5, h6, h7, h8, h9, h10, h11, h12, h13, h14, h15, h16⟩ := h
  simp only [rest_to_v1_response_format, mkV1,
    dGet_of_obj h1, dGet_of_obj h2, dGet_of_obj h3, dGet_of_obj h4,
    dGet_of_obj h5, dGet_of_obj h6, dGet_of_obj h7, dGet_of_obj h8,
    dGet_of_obj h9, dGet_of_obj h10, dGet_of_obj h11, dGet_of_obj h12,
    dGet_of_obj h13, dGet_of_obj h14, dGet_of_obj h15, dGet_of_obj h16]

/-! ### Claims -/

/-- C1: For every finite chain of pages returned by the transport, where each
page after the first is fetched via the previous page's "next" link,
`get_rest_pages` returns the ordered concatenation of every page's "data"
items in fetch order (no de-duplication: `joinData` is plain concatenation),
stopping successfully as soon as a page has no "next" link. -/
theorem get_rest_pages_chain_concat (t : String → Page) (path : String)
    (p : Page) (rest : List Page) (d0 : List Nat) (fuel : Nat)
    (hp : t path = p) (hd0 : p.data? = some d0)
    (hchain : Chained t p rest) (hgood : ∀ q ∈ rest, GoodData q)
    (hlast : truthyNext (lastP p rest) = none)
    (hfuel : rest.length < fuel) :
    getRestPages t path fuel = .ok (joinData (p :: rest), rest.length + 1) := by
  simp only [getRestPages, hp, hd0]
  rw [getRestPagesLoop_stop t rest p d0 1 fuel hchain hgood (Or.inl hlast) hfuel]
  simp [joinData, dataOf, hd0, Nat.add_comm]

/-- C1 witness: three mock pages of 10 items each, linked via "next" cursors,
with the third page omitting a "next" link — the walk returns exactly 30
items in original page order, in 3 transport calls. -/
theorem get_rest_pages_chain_concat_witness :
    getRestPages exT "first" 3 = .ok (List.range 30, 3) := by
  have h := get_rest_pages_chain_concat exT "first" exPage1 [exPage2, exPage3]
    (List.range 10) 3 rfl rfl
    ⟨"https://api.snyk.io/rest/p2", rfl, by decide, rfl,
     "https://api.snyk.io/rest/p3", rfl, by decide, rfl, trivial⟩
    (by intro q hq
        simp only [List.mem_cons, List.not_mem_nil, or_false] at hq
        rcases hq with rfl | rfl
        · exact ⟨_, rfl, by decide⟩
        · exact ⟨_, rfl, by decide⟩)
    rfl (by decide)
  rw [h]
  rfl

/-- C2: If the first page of a paginated fetch lacks a "data" field,
`get_rest_pages` fails (the spec's `MalformedPageError`); if a subsequent
page lacks a "data" field or has a present-but-empty one, the walk stops
successfully with the items accumulated so far. -/
theorem get_rest_pages_data_policy :
    (∀ (t : String → Page) (path : String) (fuel : Nat),
      (t path).data? = none → getRestPages t path fuel = .error .missingData) ∧
    (∀ (t : String → Page) (path : String) (p z : Page) (rest : List Page)
        (d0 : List Nat) (fuel : Nat),
      t path = p → p.data? = some d0 →
      Chained t p (rest ++ [z]) → (∀ q ∈ rest, GoodData q) →
      (z.data? = none ∨ z.data? = some []) →
      rest.length < fuel →
      getRestPages t path fuel = .ok (d0 ++ joinData rest, rest.length + 2)) := by
  constructor
  · exact getRestPages_missing_first_data
  · intro t path p z rest d0 fuel hp hd0 hch hgood hz hfuel
    simp only [getRestPages, hp, hd0]
    rw [getRestPagesLoop_badEnd t z hz rest p d0 1 fuel hch hgood hfuel]
    have : 1 + rest.length + 1 = rest.length + 2 := by omega
    rw [this]

/-- C2 witness: a first page without "data" errors; a two-fetch walk whose
second page lacks "data" returns the first page's items. -/
theorem get_rest_pages_data_policy_witness :
    getRestPages exT "nodata" 1 = .error .missingData ∧
    getRestPages exTNoData "first" 2 = .ok ([7, 8], 2) := by
  constructor
  · exact get_rest_pages_data_policy.1 exT "nodata" 1 rfl
  · have h := get_rest_pages_data_policy.2 exTNoData "first" exNoDataFirst
      exNoDataPage [] [7, 8] 2 rfl rfl
      ⟨"https://api.snyk.io/rest/p2", rfl, by decide, rfl, trivial⟩
      (by intro q hq; exact absurd hq (List.not_mem_nil q))
      (Or.inl rfl) (by decide)
    rw [h]
    rfl

/-- C3: For every walk ending at a page whose "next" link is present and
equal to its "self" link, the walk stops without issuing another fetch: the
number of transport calls equals the number of pages, never more. -/
theorem get_rest_pages_self_link_stops (t : String → Page) (path : String)
    (p : Page) (rest : List Page) (d0 : List Nat) (u : String) (fuel : Nat)
    (hp : t path = p) (hd0 : p.data? = some d0)
    (hchain : Chained t p rest) (hgood : ∀ q ∈ rest, GoodData q)
    (hnext : (lastP p rest).links.next? = some u)
    (hself : (lastP p rest).links.self? = some u)
    (hfuel : rest.length < fuel) :
    getRestPages t path fuel = .ok (joinData (p :: rest), (p :: rest).length) := by
  have hstop : StopsNoFetch (lastP p rest) := by
    by_cases hu : u = ""
    · subst hu
      left
      simp [truthyNext, hnext]
    · right
      exact ⟨u, by simp [truthyNext, hnext, hu], hself⟩
  simp only [getRestPages, hp, hd0]
  rw [getRestPagesLoop_stop t rest p d0 1 fuel hchain hgood hstop hfuel]
  simp [joinData, dataOf, hd0, Nat.add_comm]

/-- C3 witness: a two-page walk whose second page has `next == self` stops
after exactly 2 transport calls with both pages' items. -/
theorem get_rest_pages_self_link_stops_witness :
    getRestPages exTSelf "first" 5 = .ok ([1, 2, 3, 100, 101], 2) := by
  have h := get_rest_pages_self_link_stops exTSelf "first" exSelfFirst
    [exSelfPage] [1, 2, 3] "https://api.snyk.io/rest/p2" 5 rfl rfl
    ⟨"https://api.snyk.io/rest/p2", rfl, by decide, rfl, trivial⟩
    (by intro q hq
        simp only [List.mem_singleton] at hq
        subst hq
        exact ⟨_, rfl, by decide⟩)
    rfl rfl (by decide)
  rw [h]
  rfl

/-- C4: The project normalizer is total over every REST project payload
(missing nested keys never raise: on a well-shaped payload it returns
`some`), and with empty or absent `meta.latest_issue_counts` all four
`issueCountsBySeverity` fields are 0. -/
theorem normalize_project_total (p : J) (h : WellShaped p) :
    rest_to_v1_response_format p = some (mkV1 p) ∧
    (projCounts p = J.obj [] →
      (mkV1 p).low = J.num 0 ∧ (mkV1 p).medium = J.num 0 ∧
      (mkV1 p).high = J.num 0 ∧ (mkV1 p).critical = J.num 0) := by
  refine ⟨rest_to_v1_eq_mkV1 p h, fun hc => ?_⟩
  refine ⟨?_, ?_, ?_, ?_⟩ <;>
    simp [mkV1, hc, J.atKeyD, J.lookup]

/-- C4 witness: a concrete REST project payload with a present-but-empty
`latest_issue_counts` never raises and yields four zero severity counts. -/
theorem normalize_project_total_witness :
    WellShaped exProj ∧
    (rest_to_v1_response_format exProj = some (mkV1 exProj) ∧
      (projCounts exProj = J.obj [] →
        (mkV1 exProj).low = J.num 0 ∧ (mkV1 exProj).medium = J.num 0 ∧
        (mkV1 exProj).high = J.num 0 ∧ (mkV1 exProj).critical = J.num 0)) :=
  ⟨by decide, normalize_project_total exProj (by decide)⟩

/-- C5: A list-manager's default `get(id)` returns an item whose id is the
requested id whenever the id occurs in `all()`'s result, and raises
`SnykNotFoundError` (the spec's `NotFoundError`) when it does not. -/
theorem manager_get_roundtrip (l : List Resource) (i : String) :
    (i ∈ l.map Resource.id → getOkId (managerGet l i) = some i) ∧
    (i ∉ l.map Resource.id → managerGet l i = .error .notFound) := by
  induction l with
  | nil => exact ⟨fun h => absurd h (by simp), fun _ => rfl⟩
  | cons x l' ih =>
    by_cases hx : x.id = i
    · refine ⟨fun _ => ?_, fun hmem => absurd ?_ hmem⟩
      · simp [managerGet, List.find?, hx, getOkId]
      · simp [hx]
    · have hpred : (x.id == i) = false := by simp [hx]
      constructor
      · intro hmem
        have hmem' : i ∈ l'.map Resource.id := by
          simp only [List.map_cons, List.mem_cons] at hmem
          rcases hmem with h | h
          · exact absurd h.symm hx
          · exact h
        simpa [managerGet, List.find?, hpred, getOkId] using ih.1 hmem'
      · intro hmem
        have hmem' : i ∉ l'.map Resource.id := fun hc => hmem (by simp [hc])
        simpa [managerGet, List.find?, hpred] using ih.2 hmem'

/-- C5 witness: on a concrete three-item collection, a present id round
trips and an absent id yields `SnykNotFoundError`. -/
theorem manager_get_roundtrip_witness :
    ("id-b" ∈ exResources.map Resource.id ∧
      getOkId (managerGet exResources "id-b") = some "id-b") ∧
    ("id-z" ∉ exResources.map Resource.id ∧
      managerGet exResources "id-z" = .error .notFound) :=
  ⟨⟨by decide, (manager_get_roundtrip exResources "id-b").1 (by decide)⟩,
   ⟨by decide, (manager_get_roundtrip exResources "id-z").2 (by decide)⟩⟩

/-- C6 counterexample: the unscoped project manager (reachable as
`client.projects`) takes the `else` branch of `_query`, where the malformed
tags list is silently discarded: the first network call — GET "orgs" — is
issued and no error is ever raised, so "a ConfigurationError is raised
before any network request" fails for this call to filter. -/
theorem project_query_malformed_tag_counterexample :
    projectQueryFirst none [exBadTag] = (1, .ok ⟨"orgs", []⟩) ∧
    projectQueryFirst none [exBadTag] ≠ (0, .error .snykError) := by
  refine ⟨rfl, fun hc => ?_⟩
  exact absurd (congrArg Prod.fst hc) (by decide)

/-- C6 (amended): for every call to a scoped (organization-bound) project
manager's filter with a tags list containing a malformed tag (missing "key"
or "value", or with extra keys), `SnykError` (the spec's
`ConfigurationError`) is raised before any network request: zero transport
calls are made.  The unscoped manager instead drops the tags unvalidated. -/
theorem project_query_malformed_tag (orgId : String) (tags : List Tag)
    (h : ∃ tg ∈ tags, wellFormedTag tg = false) :
    projectQueryFirst (some orgId) tags = (0, .error .snykError) := by
  obtain ⟨tg, htg, hbad⟩ := h
  cases hall : tags.all wellFormedTag with
  | false => simp [projectQueryFirst, hall]
  | true =>
    rw [List.all_eq_true] at hall
    exact absurd (hall tg htg) (by simp [hbad])

/-- C6 witness: a scoped `filter(tags=[{"key": "env"}])` (missing "value")
errors with zero network calls. -/
theorem project_query_malformed_tag_witness :
    projectQueryFirst (some "org-1") [exBadTag] = (0, .error .snykError) :=
  project_query_malformed_tag "org-1" [exBadTag] ⟨exBadTag, by decide, by decide⟩

/-- C7 counterexample: the unscoped project manager's filter with a
well-formed tags list takes the `else` branch of `_query`, which drops the
tags list: the first request issued carries no "tags" query parameter at
all, so the request is not issued with the comma-joined rendering. -/
theorem project_filter_tags_param_counterexample :
    projectQueryFirst none [exGoodTag] = (1, .ok ⟨"orgs", []⟩) ∧
    sentTagsParam (projectQueryFirst none [exGoodTag]) = none ∧
    sentTagsParam (projectQueryFirst none [exGoodTag]) ≠
      some (.str (renderedTags [exGoodTag])) := by
  exact ⟨rfl, rfl, by decide⟩

/-- C7 (amended): for every well-formed non-empty tags list passed to a
scoped (organization-bound) project manager's filter, one request is issued,
its "tags" query parameter is the comma-joined "key:value" rendering, and
the tag predicate is applied server-side only — `ProjectManager.filter`
with no keyword predicates returns the query response unchanged (no
client-side re-filtering of the tag predicate).  The unscoped manager
instead discards the tags list. -/
theorem project_filter_tags_param (orgId : String) (tags : List Tag)
    (qr ar : List Resource)
    (h1 : tags.isEmpty = false) (h2 : tags.all wellFormedTag = true) :
    (projectQueryFirst (some orgId) tags).1 = 1 ∧
    (projectQueryFirst (some orgId) tags).2 =
      .ok ⟨"/orgs/" ++ orgId ++ "/projects", projectParams tags⟩ ∧
    List.lookup "tags" (projectParams tags) = some (.str (renderedTags tags)) ∧
    projectFilter tags [] qr ar = qr := by
  refine ⟨?_, ?_, ?_, ?_⟩
  · simp [projectQueryFirst, h2]
  · simp [projectQueryFirst, h2]
  · simp [projectParams, h1, List.lookup]
  · simp [projectFilter, h1, filter_by_kwargs]

/-- C7 witness: a scoped `filter(tags=[{"key": "env", "value": "prod"}])`
issues one request carrying `tags=env:prod` and returns the response
unchanged. -/
theorem project_filter_tags_param_witness :
    (projectQueryFirst (some "org-1") [exGoodTag]).1 = 1 ∧
    (projectQueryFirst (some "org-1") [exGoodTag]).2 =
      .ok ⟨"/orgs/org-1/projects", projectParams [exGoodTag]⟩ ∧
    List.lookup "tags" (projectParams [exGoodTag]) = some (.str "env:prod") ∧
    projectFilter [exGoodTag] [] exResources exResources = exResources :=
  project_filter_tags_param "org-1" [exGoodTag] exResources exResources rfl (by decide)

/-- C8: For every REST project payload, the normalized view sets
`isMonitored` to true iff `attributes.status` equals "active", and sets
`branch` to the same value as `targetReference`, both taken from
`attributes.target_reference`. -/
theorem normalize_project_monitored_branch (p : J) (h : WellShaped p) :
    rest_to_v1_response_format p = some (mkV1 p) ∧
    ((mkV1 p).isMonitored = true ↔
      (projAttributes p).atKeyD "status" J.null = J.str "active") ∧
    (mkV1 p).branch = (mkV1 p).targetReference ∧
    (mkV1 p).targetReference = (projAttributes p).atKeyD "target_reference" J.null :=
  ⟨rest_to_v1_eq_mkV1 p h, eqStr_eq_true_iff _ _, rfl, rfl⟩

/-- C8 witness: a concrete payload with status "active" normalizes with
`isMonitored` true and `branch` equal to `targetReference`. -/
theorem normalize_project_monitored_branch_witness :
    WellShaped exProj ∧
    (rest_to_v1_response_format exProj = some (mkV1 exProj) ∧
      ((mkV1 exProj).isMonitored = true ↔
        (projAttributes exProj).atKeyD "status" J.null = J.str "active") ∧
      (mkV1 exProj).branch = (mkV1 exProj).targetReference ∧
      (mkV1 exProj).targetReference =
        (projAttributes exProj).atKeyD "target_reference" J.null) :=
  ⟨by decide, normalize_project_monitored_branch exProj (by decide)⟩

/-- C9 counterexample: a v1 (non-REST) GET transmits a boolean query
parameter unchanged, so the claim "every GET request issued through the
client serializes booleans" is false: only the REST branch serializes. -/
theorem client_get_v1_bool_counterexample :
    clientGetSentParams "orgs" [("sortBy", .bool true)] none none false =
      some [("sortBy", PV.bool true)] ∧
    noRawBools (clientGetSentParams "orgs" [("sortBy", .bool true)] none none false) =
      false := by
  exact ⟨rfl, rfl⟩

/-- C9 (amended): for every GET request issued through the client to the
REST API (`rest=True`, which a supplied `version` also forces), every
boolean-valued query parameter is serialized as the lowercase literal
"true"/"false" before transmission; each boolean input parameter appears in
the transmitted params in serialized form. -/
theorem client_get_rest_bool_serialization (path : String)
    (params : List (String × PV)) (version clientVersion : Option String)
    (sent : List (String × PV)) (k : String) (b : Bool)
    (hs : clientGetSentParams path params version clientVersion true = some sent)
    (hmem : (k, PV.bool b) ∈ params) :
    noRawBools (some sent) = true ∧
    (k, PV.str (if b then "true" else "false")) ∈ sent := by
  have hsent : sent = serializeBools (withVersion path params version clientVersion) := by
    simp only [clientGetSentParams] at hs
    by_cases hsn : containsStr path "snyk.io" = true
    · simp [hsn] at hs
    · simp only [hsn, Bool.false_eq_true, if_false, ite_self, if_true,
        Option.some.injEq] at hs
      exact hs.symm
  subst hsent
  constructor
  · simp only [noRawBools, serializeBools, List.all_eq_true]
    intro kv hkv
    obtain ⟨kv', _, rfl⟩ := List.mem_map.mp hkv
    cases kv'.2 <;> simp
  · refine List.mem_map.mpr ⟨(k, PV.bool b), ?_, rfl⟩
    simp only [withVersion]
    by_cases hv : (params.any (fun kv => kv.1 == "version") || containsStr path "version") = true
    · simpa [hv] using hmem
    · simp only [hv, Bool.false_eq_true, if_false]
      exact List.mem_append_left _ hmem

/-- C9 witness: a REST GET with a boolean param transmits it as the
lowercase string "false" (and the appended version param). -/
theorem client_get_rest_bool_serialization_witness :
    clientGetSentParams "orgs" [("starred", PV.bool false)] none
        (some "2024-06-10") true =
      some [("starred", PV.str "false"), ("version", PV.str "2024-06-10")] ∧
    ("starred", PV.bool false) ∈ ([("starred", PV.bool false)] : List (String × PV)) ∧
    noRawBools (some [("starred", PV.str "false"), ("version", PV.str "2024-06-10")]) =
      true ∧
    ("starred", PV.str "false") ∈
      [("starred", PV.str "false"), ("version", PV.str "2024-06-10")] := by
  have h := client_get_rest_bool_serialization "orgs" [("starred", PV.bool false)]
    none (some "2024-06-10")
    [("starred", PV.str "false"), ("version", PV.str "2024-06-10")]
    "starred" false rfl (by decide)
  exact ⟨rfl, by decide, h.1, h.2⟩

/-- C10: `OrganizationManager.all` returns an empty list, not an error, when
the response body lacks an "orgs" key — unlike the paginated walker, for
which a first page without "data" is an error. -/
theorem organization_all_missing_orgs (body : J)
    (hobj : body.isObj = true) (h : body.lookup "orgs" = none) :
    organizationAll body = some [] ∧
    ∀ (t : String → Page) (path : String) (fuel : Nat),
      (t path).data? = none → getRestPages t path fuel = .error .missingData := by
  constructor
  · cases body <;> simp_all [organizationAll, J.isObj]
  · exact getRestPages_missing_first_data

/-- C10 witness: a body without "orgs" yields the empty list while the
walker errors on a first page without "data". -/
theorem organization_all_missing_orgs_witness :
    organizationAll exOrgBody = some [] ∧
    getRestPages exT "nodata" 1 = .error .missingData := by
  have h := organization_all_missing_orgs exOrgBody rfl rfl
  exact ⟨h.1, h.2 exT "nodata" 1 rfl⟩

end PySnyk
